import Mathlib

/-!
Shallow embedding of the sandboxed execution engine in `src/agent/executor.py`
(classes `ExecutionResult`, `CodeExecutor`, `DependencyManager`, `Executor`).

Effects are made explicit:
* the filesystem is a map from paths to file contents, threaded through runs;
* the outcome of each OS interaction (writing the source file, spawning the
  child process, the child process behaviour itself) is an input `RunEnv`,
  so one run of a runner is a pure function of its environment;
* every child process that gets spawned is recorded as a `SpawnEvent`, so
  claims of the form "no process is spawned" are statements about that list;
* a Python exception escaping a runner is an `Except.error msg` (the facade
  `execute_code` catches it, mirroring the `except Exception` block).
-/

namespace AgentExec

/-- Filesystem model: a map from path to file content (`none` = absent). -/
def FS : Type := String → Option String

/-- The empty filesystem. -/
def FS.empty : FS := fun _ => none

/-- `Path(p).write_text(c)`: create or overwrite the file at `p`. -/
def FS.writeFile (fs : FS) (p c : String) : FS :=
  fun q => if q = p then some c else fs q

/-- `Path(p).unlink()`: remove the file at `p`. -/
def FS.unlink (fs : FS) (p : String) : FS :=
  fun q => if q = p then none else fs q

/-- `if temp_file.exists(): temp_file.unlink()` — the cleanup in the
`finally` blocks of both file-based runners. -/
def FS.unlinkIfPresent (fs : FS) (p : String) : FS :=
  if (fs p).isSome then fs.unlink p else fs

/-- A spawned child process: either `create_subprocess_exec(program, args)`
or `create_subprocess_shell(command)`. -/
inductive SpawnEvent where
  | execProc (program : String) (args : List String)
  | shellProc (command : String)
deriving DecidableEq, Repr

/-- `ExecutionResult` of `executor.py` (lines 27-34): success flag, captured
stdout, optional error text, elapsed time and memory (both always left at
their default `0` by every call site in this module). -/
structure ExecutionResult where
  success : Bool
  output : String
  error : Option String
  execution_time : Nat
  memory_usage : Nat
deriving DecidableEq, Repr

/-- Outcome of `temp_file.write_text(code)`: success, or a raised OSError
with message `msg` (neither runner catches it; it escapes to the facade). -/
inductive WriteOutcome where
  | ok
  | ioError (msg : String)
deriving DecidableEq, Repr

/-- Outcome of `asyncio.create_subprocess_exec`: success, a raised
FileNotFoundError (missing program binary) with message `msg`, or another
raised exception with message `msg`. -/
inductive SpawnOutcome where
  | ok
  | notFound (msg : String)
  | failed (msg : String)
deriving DecidableEq, Repr

/-- Observable behaviour of the spawned child process: how many wall-clock
seconds it runs before exiting, its exit code, and its captured streams. -/
structure ProcBehavior where
  duration : Nat
  exitCode : Int
  stdout : String
  stderr : String
deriving DecidableEq, Repr

/-- The environment of one runner invocation: what the OS does at each
interaction point. -/
structure RunEnv where
  write : WriteOutcome
  spawn : SpawnOutcome
  proc : ProcBehavior
deriving DecidableEq, Repr

/-- What one runner call produces: a normal `ExecutionResult` or a raised
exception (`Except.error`), the filesystem after the `finally` cleanup, and
the child processes spawned during the call. -/
structure RunOutput where
  result : Except String ExecutionResult
  fs : FS
  spawns : List SpawnEvent

/-- `ResourceLimits.MAX_TIME` (line 24): the 30-second budget used both as
rlimit and as the `asyncio.wait_for` timeout. -/
def MAX_TIME : Nat := 30

/-- The result built from a completed process (lines 93, 114, 135):
`success = (returncode == 0)`, `output = stdout`, and
`error = stderr if stderr else None` — `None` when stderr is empty. -/
def resultFromProc (p : ProcBehavior) : ExecutionResult :=
  { success := p.exitCode == 0
    output := p.stdout
    error := if p.stderr.isEmpty then none else some p.stderr
    execution_time := 0
    memory_usage := 0 }

/-- The fixed per-invocation path of the Python runner (line 76):
`Path(self.workspace_dir) / "script.py"` — the same path for every call. -/
def python_script_path (workspace_dir : String) : String :=
  workspace_dir ++ "/script.py"

/-- The fixed per-invocation path of the JavaScript runner (line 100):
`Path(self.workspace_dir) / "script.js"` — the same path for every call. -/
def js_script_path (workspace_dir : String) : String :=
  workspace_dir ++ "/script.js"

/-- `CodeExecutor._execute_python` (lines 74-96): write the code to the fixed
`script.py` path, spawn `sys.executable` on it, await with
`asyncio.wait_for(..., timeout=MAX_TIME)`; a `TimeoutError` yields the
"Execution timeout" result after `process.terminate()`; the `finally` block
unlinks the temp file if it exists, on every exit path. A raised write or
spawn fault is not caught here and escapes as `Except.error`. -/
def execute_python (workspace_dir code : String) (env : RunEnv) (fs : FS) :
    RunOutput :=
  let temp_file := python_script_path workspace_dir
  match env.write with
  | .ioError msg =>
      { result := .error msg
        fs := fs.unlinkIfPresent temp_file
        spawns := [] }
  | .ok =>
      let fs1 := fs.writeFile temp_file code
      match env.spawn with
      | .notFound msg =>
          { result := .error msg
            fs := fs1.unlinkIfPresent temp_file
            spawns := [] }
      | .failed msg =>
          { result := .error msg
            fs := fs1.unlinkIfPresent temp_file
            spawns := [] }
      | .ok =>
          if MAX_TIME < env.proc.duration then
            { result := .ok
                { success := false, output := "",
                  error := some "Execution timeout",
                  execution_time := 0, memory_usage := 0 }
              fs := fs1.unlinkIfPresent temp_file
              spawns := [.execProc "sys.executable" [temp_file]] }
          else
            { result := .ok (resultFromProc env.proc)
              fs := fs1.unlinkIfPresent temp_file
              spawns := [.execProc "sys.executable" [temp_file]] }

/-- `CodeExecutor._execute_javascript` (lines 98-119): write the code to the
fixed `script.js` path, spawn `node` on it, and `await process.communicate()`
with NO timeout — the call returns only when the process itself exits,
however long that takes. A FileNotFoundError from the spawn is caught and
turned into the "Node.js is not installed" result; the `finally` block
unlinks the temp file on every exit path. -/
def execute_javascript (workspace_dir code : String) (env : RunEnv) (fs : FS) :
    RunOutput :=
  let temp_file := js_script_path workspace_dir
  match env.write with
  | .ioError msg =>
      { result := .error msg
        fs := fs.unlinkIfPresent temp_file
        spawns := [] }
  | .ok =>
      let fs1 := fs.writeFile temp_file code
      match env.spawn with
      | .notFound _ =>
          { result := .ok
              { success := false, output := "",
                error := some "Node.js is not installed",
                execution_time := 0, memory_usage := 0 }
            fs := fs1.unlinkIfPresent temp_file
            spawns := [] }
      | .failed msg =>
          { result := .error msg
            fs := fs1.unlinkIfPresent temp_file
            spawns := [] }
      | .ok =>
          { result := .ok (resultFromProc env.proc)
            fs := fs1.unlinkIfPresent temp_file
            spawns := [.execProc "node" [temp_file]] }

/-- The allow-list of `CodeExecutor._execute_shell` (line 123). -/
def allowed_commands : List String := ["echo", "ls", "pwd", "whoami", "date"]

/-- Split a character list at every whitespace character, keeping empty
pieces. -/
def splitWsChars : List Char → List Char → List (List Char)
  | [], cur => [cur.reverse]
  | c :: cs, cur =>
      if c.isWhitespace then cur.reverse :: splitWsChars cs []
      else splitWsChars cs (c :: cur)

/-- Python `code.split()` (no separator argument): split on runs of
whitespace, dropping empty tokens. -/
def pySplit (s : String) : List String :=
  ((splitWsChars s.data []).filter (fun t => !t.isEmpty)).map
    (fun t => String.mk t)

/-- `CodeExecutor._execute_shell` (lines 121-135): if any whitespace token of
the command is outside the allow-list, return the "Unsafe command detected"
result before spawning anything; otherwise spawn the raw command text via
`create_subprocess_shell` and await it with no timeout. -/
def execute_shell (code : String) (env : RunEnv) (fs : FS) : RunOutput :=
  if (pySplit code).any (fun cmd => !(allowed_commands.contains cmd)) then
    { result := .ok
        { success := false, output := "",
          error := some "Unsafe command detected",
          execution_time := 0, memory_usage := 0 }
      fs := fs
      spawns := [] }
  else
    match env.spawn with
    | .notFound msg =>
        { result := .error msg, fs := fs, spawns := [] }
    | .failed msg =>
        { result := .error msg, fs := fs, spawns := [] }
    | .ok =>
        { result := .ok (resultFromProc env.proc)
          fs := fs
          spawns := [.shellProc code] }

/-- What the facade `execute_code` produces: always a plain result (every
exception is caught there), the final filesystem, and the spawned
processes. -/
structure ExecOutput where
  result : ExecutionResult
  fs : FS
  spawns : List SpawnEvent

/-- The keys of `self.supported_languages` (lines 50-54). -/
def supported_languages : List String := ["python", "javascript", "shell"]

/-- Python `language.lower()`: lower-case every character. -/
def pyLower (s : String) : String :=
  String.mk (s.data.map Char.toLower)

/-- `self.supported_languages.get(language.lower())` is a hit exactly when
the lower-cased language is one of the dict keys (line 64). -/
def is_supported (language : String) : Bool :=
  supported_languages.contains (pyLower language)

/-- The `except Exception as e` block of `execute_code` (lines 70-72): an
exception escaping a runner becomes a failed result whose error is the
exception text. -/
def catchAll (r : Except String ExecutionResult) : ExecutionResult :=
  match r with
  | .ok res => res
  | .error msg =>
      { success := false, output := "", error := some msg,
        execution_time := 0, memory_usage := 0 }

/-- `CodeExecutor.execute_code` (lines 62-72): look the lower-cased language
up in the runner table; a miss returns the "Unsupported language" result
without spawning anything; a hit runs the runner with every exception caught
and converted to a failed result. -/
def execute_code (workspace_dir code language : String) (env : RunEnv)
    (fs : FS) : ExecOutput :=
  let lang := pyLower language
  if lang = "python" then
    let out := execute_python workspace_dir code env fs
    { result := catchAll out.result, fs := out.fs, spawns := out.spawns }
  else if lang = "javascript" then
    let out := execute_javascript workspace_dir code env fs
    { result := catchAll out.result, fs := out.fs, spawns := out.spawns }
  else if lang = "shell" then
    let out := execute_shell code env fs
    { result := catchAll out.result, fs := out.fs, spawns := out.spawns }
  else
    { result :=
        { success := false, output := "",
          error := some ("Unsupported language: " ++ language),
          execution_time := 0, memory_usage := 0 }
      fs := fs
      spawns := [] }

/-- The dict returned by `DependencyManager.install_dependencies`. Python
dicts can omit keys, so each optional key is `Option`-wrapped at one more
level than its value: `none` means the key is absent from the dict, and
`some v` means the key is present with value `v` (where an inner `none`
models Python `None`). -/
structure InstallResult where
  success : Bool
  output : String
  error : Option (Option String)
  installed : Option (List String)
deriving DecidableEq, Repr

/-- What one `install_dependencies` call produces. -/
structure InstallOutput where
  result : InstallResult
  spawns : List SpawnEvent
deriving DecidableEq, Repr

/-- `self.package_managers` of `DependencyManager` (lines 141-144): language
to (manager executable, install subcommand), with exact (case-sensitive)
keys. -/
def package_managers : List (String × String × String) :=
  [("python", "pip", "install"), ("javascript", "npm", "install")]

/-- `DependencyManager.install_dependencies` (lines 146-173): empty package
lists short-circuit to `{"success": True, "output": "No packages to
install"}` (no other keys, nothing spawned); a language outside the
package-manager table returns `{"success": False, "output": "Unsupported
language: ..."}` (again no error or installed keys, nothing spawned);
otherwise the manager is spawned once with all packages, and the dict
carries success by exit code, the transcript, `error` (stderr or `None`),
and `installed` (all packages on success, else empty); any exception is
caught and reported as a failed dict. -/
def install_dependencies (packages : List String) (language : String)
    (env : RunEnv) : InstallOutput :=
  if packages.isEmpty then
    { result :=
        { success := true, output := "No packages to install",
          error := none, installed := none }
      spawns := [] }
  else
    match package_managers.lookup language with
    | none =>
        { result :=
            { success := false,
              output := "Unsupported language: " ++ language,
              error := none, installed := none }
          spawns := [] }
    | some (package_manager, install_cmd) =>
        match env.spawn with
        | .notFound msg =>
            { result :=
                { success := false, output := "",
                  error := some (some msg), installed := some [] }
              spawns := [] }
        | .failed msg =>
            { result :=
                { success := false, output := "",
                  error := some (some msg), installed := some [] }
              spawns := [] }
        | .ok =>
            { result :=
                { success := env.proc.exitCode == 0,
                  output := env.proc.stdout,
                  error := some (if env.proc.stderr.isEmpty then none
                                 else some env.proc.stderr),
                  installed := some (if env.proc.exitCode == 0 then packages
                                     else []) }
              spawns := [.execProc package_manager (install_cmd :: packages)] }

/-- The directory-creation state of the host: the set of directories that
exist plus a fresh-name counter for `tempfile.mkdtemp`. -/
structure SysState where
  dirs : List String
  fresh : Nat
deriving DecidableEq, Repr

/-- `tempfile.mkdtemp(prefix="ai_agent_")`: create and return a fresh,
never-before-used directory. -/
def mkdtemp (st : SysState) : String × SysState :=
  let d := "/tmp/ai_agent_" ++ toString st.fresh
  (d, { dirs := d :: st.dirs, fresh := st.fresh + 1 })

/-- The `CodeExecutor` object: its one piece of state used here. -/
structure CodeExecutor where
  workspace_dir : String
deriving DecidableEq, Repr

/-- `CodeExecutor.__init__` (line 48):
`self.workspace_dir = workspace_dir or tempfile.mkdtemp(prefix="ai_agent_")`. -/
def CodeExecutor.init (workspace_dir : Option String) (st : SysState) :
    CodeExecutor × SysState :=
  match workspace_dir with
  | some d => (⟨d⟩, st)
  | none =>
      let (d, st1) := mkdtemp st
      (⟨d⟩, st1)

/-- The `Executor` facade object. -/
structure Executor where
  code_executor : CodeExecutor
  workspace_dir : String
deriving DecidableEq, Repr

/-- `Executor.__init__` (lines 178-181): builds a `CodeExecutor` with the
given (possibly absent) workspace dir, then evaluates
`workspace_dir or tempfile.mkdtemp(prefix="ai_agent_")` AGAIN for its own
`self.workspace_dir` — with no explicit dir, `mkdtemp` is thus called twice
and the two objects hold two different directories. -/
def Executor.init (workspace_dir : Option String) (st : SysState) :
    Executor × SysState :=
  let (ce, st1) := CodeExecutor.init workspace_dir st
  match workspace_dir with
  | some d => (⟨ce, d⟩, st1)
  | none =>
      let (d, st2) := mkdtemp st1
      (⟨ce, d⟩, st2)

/-- `Executor.cleanup` (lines 192-195): if `self.workspace_dir` exists,
remove it recursively with `ignore_errors=True`; touches no other
directory and never raises. -/
def Executor.cleanup (e : Executor) (st : SysState) : SysState :=
  { dirs := st.dirs.filter (fun d => d ≠ e.workspace_dir),
    fresh := st.fresh }

/-! Helper lemmas shared by the claim theorems. -/

/-- Dispatch equation: `execute_code` with language `"python"` runs the
Python runner under the catch-all exception handler. -/
theorem execute_code_python_eq (ws code : String) (env : RunEnv) (fs : FS) :
    execute_code ws code "python" env fs =
      { result := catchAll (execute_python ws code env fs).result,
        fs := (execute_python ws code env fs).fs,
        spawns := (execute_python ws code env fs).spawns } := rfl

/-- Dispatch equation: `execute_code` with language `"javascript"` runs the
JavaScript runner under the catch-all exception handler. -/
theorem execute_code_javascript_eq (ws code : String) (env : RunEnv)
    (fs : FS) :
    execute_code ws code "javascript" env fs =
      { result := catchAll (execute_javascript ws code env fs).result,
        fs := (execute_javascript ws code env fs).fs,
        spawns := (execute_javascript ws code env fs).spawns } := rfl

/-- Dispatch equation: `execute_code` with language `"shell"` runs the shell
runner under the catch-all exception handler. -/
theorem execute_code_shell_eq (ws code : String) (env : RunEnv) (fs : FS) :
    execute_code ws code "shell" env fs =
      { result := catchAll (execute_shell code env fs).result,
        fs := (execute_shell code env fs).fs,
        spawns := (execute_shell code env fs).spawns } := rfl

/-- The guarded unlink of the `finally` blocks always leaves the target path
absent. -/
theorem fs_unlinkIfPresent_self (fs : FS) (p : String) :
    fs.unlinkIfPresent p p = none := by
  by_cases h : (fs p).isSome
  · simp [FS.unlinkIfPresent, FS.unlink, h]
  · simp [FS.unlinkIfPresent, h, Option.not_isSome_iff_eq_none.mp h]

/-- The shell runner rejects the whole request before spawning whenever any
token fails the allow-list test. -/
theorem execute_shell_rejects (code : String) (env : RunEnv) (fs : FS)
    (hany : (pySplit code).any
        (fun cmd => !(allowed_commands.contains cmd)) = true) :
    execute_shell code env fs =
      { result := .ok
          { success := false, output := "",
            error := some "Unsafe command detected",
            execution_time := 0, memory_usage := 0 },
        fs := fs, spawns := [] } := by
  unfold execute_shell
  rw [if_pos hany]

/-! Claim theorems. -/

/-- Claim C1 (code_bug evidence): the invocation-namespace path of the
Python runner is the constant `workspace_dir ++ "/script.py"` (and
`"/script.js"` for JavaScript) — a fixed filename in the shared workspace,
not a per-call unique name — so a second in-flight invocation writing its
source overwrites the first invocation's source at the very same path. -/
theorem c1_fixed_path_shared_between_invocations :
    python_script_path "/tmp/ai_agent_w" = "/tmp/ai_agent_w/script.py" ∧
    js_script_path "/tmp/ai_agent_w" = "/tmp/ai_agent_w/script.js" ∧
    (FS.writeFile
        (FS.writeFile FS.empty (python_script_path "/tmp/ai_agent_w")
          "print(1)")
        (python_script_path "/tmp/ai_agent_w") "print(2)")
      (python_script_path "/tmp/ai_agent_w") = some "print(2)" := by
  refine ⟨rfl, rfl, ?_⟩
  simp [FS.writeFile, python_script_path, FS.empty]

/-- Claim C2: any shell command text containing at least one
whitespace-separated token outside the allow-list (echo, ls, pwd, whoami,
date) makes `execute(cmd, "shell")` return success=false with
error="Unsafe command detected", with no child process spawned and the
filesystem untouched. -/
theorem c2_unsafe_shell_command_rejected (ws code : String) (env : RunEnv)
    (fs : FS) (t : String) (ht : t ∈ pySplit code)
    (hbad : allowed_commands.contains t = false) :
    (execute_code ws code "shell" env fs).result =
      { success := false, output := "",
        error := some "Unsafe command detected",
        execution_time := 0, memory_usage := 0 } ∧
    (execute_code ws code "shell" env fs).spawns = [] := by
  have hany : (pySplit code).any
      (fun cmd => !(allowed_commands.contains cmd)) = true := by
    rw [List.any_eq_true]
    exact ⟨t, ht, by rw [hbad]; rfl⟩
  rw [execute_code_shell_eq, execute_shell_rejects code env fs hany]
  exact ⟨rfl, rfl⟩

/-- Claim C2 witness at the concrete command "rm -rf /". -/
theorem c2_unsafe_shell_command_rejected_witness :
    (execute_code "/tmp/w" "rm -rf /" "shell"
        ⟨.ok, .ok, ⟨1, 0, "", ""⟩⟩ FS.empty).result =
      { success := false, output := "",
        error := some "Unsafe command detected",
        execution_time := 0, memory_usage := 0 } ∧
    (execute_code "/tmp/w" "rm -rf /" "shell"
        ⟨.ok, .ok, ⟨1, 0, "", ""⟩⟩ FS.empty).spawns = [] :=
  c2_unsafe_shell_command_rejected "/tmp/w" "rm -rf /"
    ⟨.ok, .ok, ⟨1, 0, "", ""⟩⟩ FS.empty "rm" (by decide) (by decide)

/-- Claim C3 (code_bug evidence): with the same environment — a process that
runs 31 wall-clock seconds, past the 30-second budget — the Python runner
returns the "Execution timeout" failure, but the JavaScript runner, which
awaits with no deadline, returns success=true from the process exit code,
and the shell runner likewise returns the plain completion result. -/
theorem c3_javascript_runner_lacks_deadline :
    (execute_python "/tmp/w" "import time; time.sleep(60)"
        ⟨.ok, .ok, ⟨31, 0, "", ""⟩⟩ FS.empty).result =
      .ok { success := false, output := "",
            error := some "Execution timeout",
            execution_time := 0, memory_usage := 0 } ∧
    (execute_javascript "/tmp/w" "setTimeout(done, 60000)"
        ⟨.ok, .ok, ⟨31, 0, "", ""⟩⟩ FS.empty).result =
      .ok { success := true, output := "", error := none,
            execution_time := 0, memory_usage := 0 } ∧
    (execute_shell "echo"
        ⟨.ok, .ok, ⟨31, 0, "", ""⟩⟩ FS.empty).result =
      .ok { success := true, output := "", error := none,
            execution_time := 0, memory_usage := 0 } := by
  exact ⟨rfl, rfl, rfl⟩

/-- Claim C4: for every language whose lower-cased form is outside the
supported set (python, javascript, shell), `execute_code` returns a result
with success=false whose error names the unsupported language, spawns no
process, and leaves the filesystem untouched; by construction the facade is
a total function into `ExecutionResult`, so no exception reaches the caller
for this or any modelled failure mode. -/
theorem c4_unsupported_language_rejected (ws code language : String)
    (env : RunEnv) (fs : FS) (h : is_supported language = false) :
    (execute_code ws code language env fs).result =
      { success := false, output := "",
        error := some ("Unsupported language: " ++ language),
        execution_time := 0, memory_usage := 0 } ∧
    (execute_code ws code language env fs).spawns = [] ∧
    (execute_code ws code language env fs).fs = fs := by
  rw [is_supported, supported_languages] at h
  simp only [List.contains_cons, List.contains_nil, Bool.or_false,
    Bool.or_eq_false_iff, beq_eq_false_iff_ne, ne_eq] at h
  unfold execute_code
  rw [if_neg h.1, if_neg h.2.1, if_neg h.2.2]
  exact ⟨rfl, rfl, rfl⟩

/-- Claim C4 witness at the concrete language "ruby". -/
theorem c4_unsupported_language_rejected_witness :
    (execute_code "/tmp/w" "puts 1" "ruby"
        ⟨.ok, .ok, ⟨1, 0, "", ""⟩⟩ FS.empty).result =
      { success := false, output := "",
        error := some ("Unsupported language: " ++ "ruby"),
        execution_time := 0, memory_usage := 0 } ∧
    (execute_code "/tmp/w" "puts 1" "ruby"
        ⟨.ok, .ok, ⟨1, 0, "", ""⟩⟩ FS.empty).spawns = [] ∧
    (execute_code "/tmp/w" "puts 1" "ruby"
        ⟨.ok, .ok, ⟨1, 0, "", ""⟩⟩ FS.empty).fs = FS.empty :=
  c4_unsupported_language_rejected "/tmp/w" "puts 1" "ruby"
    ⟨.ok, .ok, ⟨1, 0, "", ""⟩⟩ FS.empty (by decide)

/-- Claim C5: for every environment — normal exit, timeout, write fault or
spawn fault — the Python and JavaScript runners leave their invocation
temp file absent from the filesystem when they return: the `finally` block
removes it on every exit path. -/
theorem c5_temp_file_removed_on_every_exit_path (ws code : String)
    (env : RunEnv) (fs : FS) :
    (execute_python ws code env fs).fs (python_script_path ws) = none ∧
    (execute_javascript ws code env fs).fs (js_script_path ws) = none := by
  constructor
  · unfold execute_python
    cases env.write with
    | ioError msg => exact fs_unlinkIfPresent_self fs _
    | ok =>
      cases env.spawn with
      | notFound msg => exact fs_unlinkIfPresent_self _ _
      | failed msg => exact fs_unlinkIfPresent_self _ _
      | ok =>
        dsimp only
        split <;> exact fs_unlinkIfPresent_self _ _
  · unfold execute_javascript
    cases env.write with
    | ioError msg => exact fs_unlinkIfPresent_self fs _
    | ok =>
      cases env.spawn with
      | notFound msg => exact fs_unlinkIfPresent_self _ _
      | failed msg => exact fs_unlinkIfPresent_self _ _
      | ok => exact fs_unlinkIfPresent_self _ _

/-- Claim C6 (code_bug evidence): constructing the engine with no explicit
workspace directory calls `mkdtemp` twice — once inside `CodeExecutor`,
once for the facade itself — and `cleanup` removes only the facade's own
directory; after the first cleanup the inner `CodeExecutor` workspace is
still on disk, even though a second cleanup is indeed a no-op (idempotent,
no error). -/
theorem c6_cleanup_leaves_inner_workspace :
    (Executor.init none ⟨[], 0⟩).1.cleanup
        ((Executor.init none ⟨[], 0⟩).1.cleanup (Executor.init none ⟨[], 0⟩).2)
      = (Executor.init none ⟨[], 0⟩).1.cleanup (Executor.init none ⟨[], 0⟩).2 ∧
    (Executor.init none ⟨[], 0⟩).1.code_executor.workspace_dir ∈
      ((Executor.init none ⟨[], 0⟩).1.cleanup
        (Executor.init none ⟨[], 0⟩).2).dirs ∧
    (Executor.init none ⟨[], 0⟩).1.code_executor.workspace_dir ≠
      (Executor.init none ⟨[], 0⟩).1.workspace_dir := by decide

/-- Claim C7 counterexample: a Python run whose process exits non-zero with
empty stderr yields success=false together with error=none — so the error
field is NOT populated whenever success=false, refuting the claimed
"populated exactly when success=false or non-empty stderr" biconditional. -/
theorem c7_error_field_counterexample :
    (execute_code "/tmp/w" "import sys; sys.exit(1)" "python"
        ⟨.ok, .ok, ⟨1, 1, "", ""⟩⟩ FS.empty).result.success = false ∧
    (execute_code "/tmp/w" "import sys; sys.exit(1)" "python"
        ⟨.ok, .ok, ⟨1, 1, "", ""⟩⟩ FS.empty).result.error = none := by decide

/-- Claim C7 as amended, covering every runner: success=false whenever the
process exits non-zero, times out (the deadline exists only in the Python
runner), fails to spawn, or the source write fails; on every normal exit —
Python within the deadline, JavaScript and shell at any duration — the
error field is populated exactly when stderr is non-empty, so a non-zero
exit with empty stderr leaves error=none while non-empty stderr alongside
a zero exit is preserved in error without flipping success; the fault paths
carry their messages in error: Python's timeout carries "Execution
timeout", a missing Node runtime carries "Node.js is not installed", the
shell allow-list rejection carries "Unsafe command detected", and the
remaining write and spawn faults carry the exception text. -/
theorem c7_result_invariant_amended (ws code : String) (env : RunEnv)
    (fs : FS) :
    (env.write = .ok → env.spawn = .ok → env.proc.duration ≤ MAX_TIME →
      (execute_code ws code "python" env fs).result.success =
          (env.proc.exitCode == 0) ∧
      (execute_code ws code "python" env fs).result.error =
          (if env.proc.stderr.isEmpty then none else some env.proc.stderr)) ∧
    (env.write = .ok → env.spawn = .ok → MAX_TIME < env.proc.duration →
      (execute_code ws code "python" env fs).result.success = false ∧
      (execute_code ws code "python" env fs).result.error =
          some "Execution timeout") ∧
    (∀ msg, env.write = .ok →
      (env.spawn = .notFound msg ∨ env.spawn = .failed msg) →
      (execute_code ws code "python" env fs).result.success = false ∧
      (execute_code ws code "python" env fs).result.error = some msg) ∧
    (∀ msg, env.write = .ioError msg →
      (execute_code ws code "python" env fs).result.success = false ∧
      (execute_code ws code "python" env fs).result.error = some msg) ∧
    (env.write = .ok → env.spawn = .ok →
      (execute_code ws code "javascript" env fs).result.success =
          (env.proc.exitCode == 0) ∧
      (execute_code ws code "javascript" env fs).result.error =
          (if env.proc.stderr.isEmpty then none else some env.proc.stderr)) ∧
    (∀ msg, env.write = .ok → env.spawn = .notFound msg →
      (execute_code ws code "javascript" env fs).result.success = false ∧
      (execute_code ws code "javascript" env fs).result.error =
          some "Node.js is not installed") ∧
    (∀ msg, env.write = .ok → env.spawn = .failed msg →
      (execute_code ws code "javascript" env fs).result.success = false ∧
      (execute_code ws code "javascript" env fs).result.error = some msg) ∧
    (∀ msg, env.write = .ioError msg →
      (execute_code ws code "javascript" env fs).result.success = false ∧
      (execute_code ws code "javascript" env fs).result.error = some msg) ∧
    ((pySplit code).any (fun cmd => !(allowed_commands.contains cmd)) =
        false →
      env.spawn = .ok →
      (execute_code ws code "shell" env fs).result.success =
          (env.proc.exitCode == 0) ∧
      (execute_code ws code "shell" env fs).result.error =
          (if env.proc.stderr.isEmpty then none else some env.proc.stderr)) ∧
    ((pySplit code).any (fun cmd => !(allowed_commands.contains cmd)) =
        false →
      ∀ msg, (env.spawn = .notFound msg ∨ env.spawn = .failed msg) →
      (execute_code ws code "shell" env fs).result.success = false ∧
      (execute_code ws code "shell" env fs).result.error = some msg) ∧
    ((pySplit code).any (fun cmd => !(allowed_commands.contains cmd)) =
        true →
      (execute_code ws code "shell" env fs).result.success = false ∧
      (execute_code ws code "shell" env fs).result.error =
          some "Unsafe command detected") := by
  rw [execute_code_python_eq, execute_code_javascript_eq,
    execute_code_shell_eq]
  refine ⟨?_, ?_, ?_, ?_, ?_, ?_, ?_, ?_, ?_, ?_, ?_⟩
  · intro hw hs hd
    unfold execute_python
    rw [hw, hs]
    dsimp only
    rw [if_neg (Nat.not_lt.mpr hd)]
    exact ⟨rfl, rfl⟩
  · intro hw hs hd
    unfold execute_python
    rw [hw, hs]
    dsimp only
    rw [if_pos hd]
    exact ⟨rfl, rfl⟩
  · intro msg hw hsp
    unfold execute_python
    rcases hsp with h | h
    · rw [hw, h]; exact ⟨rfl, rfl⟩
    · rw [hw, h]; exact ⟨rfl, rfl⟩
  · intro msg hw
    unfold execute_python
    rw [hw]
    exact ⟨rfl, rfl⟩
  · intro hw hs
    unfold execute_javascript
    rw [hw, hs]
    exact ⟨rfl, rfl⟩
  · intro msg hw hs
    unfold execute_javascript
    rw [hw, hs]
    exact ⟨rfl, rfl⟩
  · intro msg hw hs
    unfold execute_javascript
    rw [hw, hs]
    exact ⟨rfl, rfl⟩
  · intro msg hw
    unfold execute_javascript
    rw [hw]
    exact ⟨rfl, rfl⟩
  · intro hany hs
    unfold execute_shell
    rw [hany, hs]
    exact ⟨rfl, rfl⟩
  · intro hany msg hsp
    unfold execute_shell
    rcases hsp with h | h
    · rw [hany, h]; exact ⟨rfl, rfl⟩
    · rw [hany, h]; exact ⟨rfl, rfl⟩
  · intro hany
    unfold execute_shell
    rw [hany]
    exact ⟨rfl, rfl⟩

/-- Claim C7 witness: the amended invariant applied at three concrete runs —
a Python process exiting 2 with non-empty stderr "boom", a JavaScript spawn
hitting a missing Node binary, and a shell run of "echo" exiting 0 with
empty stderr. -/
theorem c7_result_invariant_amended_witness :
    ((execute_code "/tmp/w" "x" "python"
        ⟨.ok, .ok, ⟨1, 2, "out", "boom"⟩⟩ FS.empty).result.success =
        ((2 : Int) == 0) ∧
     (execute_code "/tmp/w" "x" "python"
        ⟨.ok, .ok, ⟨1, 2, "out", "boom"⟩⟩ FS.empty).result.error =
        (if ("boom" : String).isEmpty then none else some "boom")) ∧
    ((execute_code "/tmp/w" "x" "javascript"
        ⟨.ok, .notFound "No such file or directory",
          ⟨1, 0, "", ""⟩⟩ FS.empty).result.success = false ∧
     (execute_code "/tmp/w" "x" "javascript"
        ⟨.ok, .notFound "No such file or directory",
          ⟨1, 0, "", ""⟩⟩ FS.empty).result.error =
        some "Node.js is not installed") ∧
    ((execute_code "/tmp/w" "echo" "shell"
        ⟨.ok, .ok, ⟨1, 0, "hi", ""⟩⟩ FS.empty).result.success =
        ((0 : Int) == 0) ∧
     (execute_code "/tmp/w" "echo" "shell"
        ⟨.ok, .ok, ⟨1, 0, "hi", ""⟩⟩ FS.empty).result.error =
        (if ("" : String).isEmpty then none else some "")) :=
  ⟨(c7_result_invariant_amended "/tmp/w" "x"
      ⟨.ok, .ok, ⟨1, 2, "out", "boom"⟩⟩ FS.empty).1 rfl rfl (by decide),
   (c7_result_invariant_amended "/tmp/w" "x"
      ⟨.ok, .notFound "No such file or directory", ⟨1, 0, "", ""⟩⟩
      FS.empty).2.2.2.2.2.1 "No such file or directory" rfl rfl,
   (c7_result_invariant_amended "/tmp/w" "echo"
      ⟨.ok, .ok, ⟨1, 0, "hi", ""⟩⟩ FS.empty).2.2.2.2.2.2.2.2.1
      (by decide) rfl⟩

/-- Claim C8 counterexample: the empty-packages short-circuit returns a dict
with NO installed-packages key at all (`none` at the key level), not a dict
whose installed-packages value is the empty set. -/
theorem c8_installed_key_counterexample :
    (install_dependencies [] "python"
        ⟨.ok, .ok, ⟨1, 0, "", ""⟩⟩).result.installed = none ∧
    (install_dependencies [] "python"
        ⟨.ok, .ok, ⟨1, 0, "", ""⟩⟩).result.installed ≠ some [] := by decide

/-- Claim C8 as amended: for every language and environment,
`install_dependencies []` short-circuits to success=true with output "No
packages to install", spawns no process, and omits both the error and the
installed-packages keys from the returned dict. -/
theorem c8_empty_packages_short_circuit (language : String) (env : RunEnv) :
    install_dependencies [] language env =
      { result :=
          { success := true, output := "No packages to install",
            error := none, installed := none },
        spawns := [] } := rfl

/-- Claim C9 counterexample: for a non-empty package list and the unknown
language "ruby", the returned dict carries the descriptive message in its
output field while the error key is absent — the error field does not carry
the message as claimed. -/
theorem c9_error_field_counterexample :
    (install_dependencies ["requests"] "ruby"
        ⟨.ok, .ok, ⟨1, 0, "", ""⟩⟩).result.error = none ∧
    (install_dependencies ["requests"] "ruby"
        ⟨.ok, .ok, ⟨1, 0, "", ""⟩⟩).result.output =
      "Unsupported language: ruby" := by decide

/-- Claim C9 as amended: for every non-empty package list and every language
outside the package-manager table, `install_dependencies` returns
success=false with the descriptive message "Unsupported language: ..." in
the output field, omits the error and installed-packages keys, and spawns
no process; the function is total, so it never raises. -/
theorem c9_unknown_package_manager_rejected (packages : List String)
    (language : String) (env : RunEnv) (hne : packages.isEmpty = false)
    (hunk : package_managers.lookup language = none) :
    install_dependencies packages language env =
      { result :=
          { success := false,
            output := "Unsupported language: " ++ language,
            error := none, installed := none },
        spawns := [] } := by
  unfold install_dependencies
  rw [hne, hunk]
  rfl

/-- Claim C9 witness at packages ["requests"] and language "ruby". -/
theorem c9_unknown_package_manager_rejected_witness :
    install_dependencies ["requests"] "ruby" ⟨.ok, .ok, ⟨1, 0, "", ""⟩⟩ =
      { result :=
          { success := false,
            output := "Unsupported language: " ++ "ruby",
            error := none, installed := none },
        spawns := [] } :=
  c9_unknown_package_manager_rejected ["requests"] "ruby"
    ⟨.ok, .ok, ⟨1, 0, "", ""⟩⟩ (by decide) (by decide)

/-- Claim C10: a shell command whose whitespace tokenization is empty (empty
or whitespace-only text) vacuously passes the allow-list check: the runner
does not reject it, and (when the spawn succeeds) it spawns one shell child
carrying the raw command text and returns the plain completion result. -/
theorem c10_empty_tokenization_spawns_shell (code : String) (env : RunEnv)
    (fs : FS) (hempty : pySplit code = []) (hspawn : env.spawn = .ok) :
    (execute_shell code env fs).result = .ok (resultFromProc env.proc) ∧
    (execute_shell code env fs).spawns = [.shellProc code] := by
  unfold execute_shell
  rw [hempty, hspawn]
  exact ⟨rfl, rfl⟩

/-- Claim C10 witness at the whitespace-only command "   ". -/
theorem c10_empty_tokenization_spawns_shell_witness :
    (execute_shell "   " ⟨.ok, .ok, ⟨1, 0, "", ""⟩⟩ FS.empty).result =
      .ok (resultFromProc ⟨1, 0, "", ""⟩) ∧
    (execute_shell "   " ⟨.ok, .ok, ⟨1, 0, "", ""⟩⟩ FS.empty).spawns =
      [.shellProc "   "] :=
  c10_empty_tokenization_spawns_shell "   " ⟨.ok, .ok, ⟨1, 0, "", ""⟩⟩
    FS.empty (by decide) rfl

end AgentExec
